import Mathlib

/-!
Shallow embedding of the Lead-Gen-Engine processing stage
(`processor_api.py`, `master_control.py`) and proofs about its
deduplication, caching, retry, and quota logic.

Strings are modelled as Lean `String`s; all character-level operations
(Python `re.sub`, `str.strip`, `str.lower`, `filter(str.isdigit, ...)`)
are implemented over `String.data` lists so every definition is
executable and decidable.  Wall-clock effects (`time.sleep`) are either
elided or recorded as delay lists; file persistence is modelled as pure
state threading.
-/

/-- Python `\s` whitespace on ASCII: space, tab, newline, carriage
return, vertical tab (11), form feed (12). -/
def isPySpace (c : Char) : Bool :=
  c == ' ' || c == '\t' || c == '\n' || c == '\r' || c == '\x0B' || c == '\x0C'

/-- Characters kept by the source's `re.sub(r'[^a-z0-9]', '', ...)`:
lowercase ASCII letters and digits. -/
def isLowerAlnum (c : Char) : Bool :=
  decide ('a' ≤ c ∧ c ≤ 'z') || decide ('0' ≤ c ∧ c ≤ '9')

/-- Strip a leading and trailing run of characters satisfying `q`
(list form of Python `str.strip`). -/
def pyStripP (q : Char → Bool) (l : List Char) : List Char :=
  ((l.dropWhile q).reverse.dropWhile q).reverse

/-- Python `str.strip()` (whitespace at both ends). -/
def pyStrip (s : String) : String := String.mk (pyStripP isPySpace s.data)

/-- Python `str.strip('-')`-style strip of one specific character. -/
def pyStripChar (t : Char) (l : List Char) : List Char :=
  pyStripP (fun c => c == t) l

/-- Python `str.lower()` (ASCII). -/
def toLowerStr (s : String) : String := String.mk (s.data.map Char.toLower)

/-- The source's `re.sub(r'[^a-z0-9]', '', x.lower())`: lowercase and keep
only lowercase alphanumerics (spaces removed too). -/
def alnumLowerS (s : String) : String :=
  String.mk ((s.data.map Char.toLower).filter isLowerAlnum)

/-- Digit characters of a string, as in `''.join(filter(str.isdigit, s))`. -/
def digitsOf (s : String) : List Char := s.data.filter Char.isDigit

/-- Python `digits[-10:]`: the last (at most) ten elements. -/
def lastTen (l : List Char) : List Char := l.drop (l.length - 10)

/-- Collapse each run of ≥ 2 copies of `t` into a single `t`. -/
def collapseChar (t : Char) : List Char → List Char
  | [] => []
  | [c] => [c]
  | c :: d :: cs =>
    if c = t ∧ d = t then collapseChar t (d :: cs)
    else c :: collapseChar t (d :: cs)

/-- Python substring membership `sub in l` over char lists. -/
def containsList (sub : List Char) : List Char → Bool
  | [] => sub.isEmpty
  | c :: cs => sub.isPrefixOf (c :: cs) || containsList sub cs

/-- Python `sub in s` for strings. -/
def containsSub (s sub : String) : Bool := containsList sub.data s.data

/-- `normalize_text` from processor_api.py: lowercase, drop everything
except `[a-z0-9\s]`, then `' '.join(cleaned.split())` (collapse internal
whitespace, strip the ends). -/
def normalize_text (text : String) : String :=
  if text = "" then ""
  else
    let lowered := text.data.map Char.toLower
    let cleaned := lowered.filter (fun c => isLowerAlnum c || isPySpace c)
    let spaced := cleaned.map (fun c => if isPySpace c then ' ' else c)
    String.mk (pyStripChar ' ' (collapseChar ' ' spaced))

/-- `normalize_phone` from processor_api.py: keep digits; return the last
10 of them when there are at least 10, otherwise all of them. -/
def normalize_phone (phone : String) : String :=
  if phone = "" then ""
  else
    let ds := digitsOf phone
    if 10 ≤ ds.length then String.mk (ds.drop (ds.length - 10)) else String.mk ds

/-- `DuplicateGuardian._create_duplicate_key`: phone key when the inline
phone normalization (last 10 digits) yields exactly 10 digits, else a
name key from the lowercase alphanumeric name, else no key. -/
def create_duplicate_key (name phone : String) : Option String :=
  let name_norm := alnumLowerS name
  let phone_norm := if phone = "" then "" else String.mk (lastTen (digitsOf phone))
  if phone_norm ≠ "" ∧ phone_norm.length = 10 then some ("phone:" ++ phone_norm)
  else if name_norm ≠ "" then some ("name:" ++ name_norm)
  else none

/-- Helper: the inline phone normalization of `create_duplicate_key`
coincides with taking the last ten digits unconditionally. -/
theorem phoneNorm_eq (phone : String) :
    (if phone = "" then "" else String.mk (lastTen (digitsOf phone)))
      = String.mk (lastTen (digitsOf phone)) := by
  by_cases h : phone = ""
  · subst h
    rfl
  · simp [h]

/-- Helper: the inline phone normalization also coincides with
`normalize_phone`. -/
theorem phoneNorm_eq_normalize_phone (phone : String) :
    (if phone = "" then "" else String.mk (lastTen (digitsOf phone)))
      = normalize_phone phone := by
  rw [phoneNorm_eq]
  by_cases h : phone = ""
  · subst h
    rfl
  · simp only [normalize_phone, h, if_false, lastTen]
    by_cases h10 : 10 ≤ (digitsOf phone).length
    · simp [h10]
    · have : (digitsOf phone).length - 10 = 0 := by omega
      simp [h10, this]

/-- C2 counterexample: for the name "Cafe X" (no usable phone) the code's
key is "name:cafex" — the space is stripped — not "name:" followed by
`normalize_text "Cafe X" = "cafe x"` as the claim states. -/
theorem c2_counterexample :
    create_duplicate_key "Cafe X" "" ≠ some ("name:" ++ normalize_text "Cafe X") := by
  decide

/-- C2 (amended): the fingerprint is "phone:" ++ the 10-digit normalized
contact when `normalize_phone` yields exactly 10 digits; otherwise, when
the name lowercased with every non-alphanumeric character (spaces
included) removed is non-empty, the fingerprint is "name:" followed by
that stripped name (not by `normalize_text`, which keeps spaces);
otherwise no fingerprint exists. -/
theorem c2_amended (name phone : String) :
    create_duplicate_key name phone =
      if (normalize_phone phone).length = 10 then
        some ("phone:" ++ normalize_phone phone)
      else if alnumLowerS name ≠ "" then some ("name:" ++ alnumLowerS name)
      else none := by
  simp only [create_duplicate_key]
  rw [phoneNorm_eq_normalize_phone]
  by_cases h : (normalize_phone phone).length = 10
  · have hne : normalize_phone phone ≠ "" := by
      intro he
      rw [he] at h
      simp at h
    rw [if_pos ⟨hne, h⟩, if_pos h]
  · rw [if_neg (fun hc => h hc.2), if_neg h]

/-- C7 counterexample: an 11-digit phone with no country code does
produce a phone fingerprint (the last 10 digits), instead of falling
back to the non-empty name as the claim states. -/
theorem c7_counterexample :
    (digitsOf "12345678901").length = 11 ∧
    create_duplicate_key "Some Cafe" "12345678901" = some "phone:2345678901" ∧
    create_duplicate_key "Some Cafe" "12345678901" ≠
      some ("name:" ++ alnumLowerS "Some Cafe") := by
  decide

/-- C7 (amended): a phone whose digits number 9 never yields a phone
fingerprint — the key falls back to the stripped name, or to none — but
a phone with 11 digits always yields the phone fingerprint made of its
last 10 digits. -/
theorem c7_amended (name phone : String) :
    ((digitsOf phone).length = 9 →
      create_duplicate_key name phone =
        (if alnumLowerS name ≠ "" then some ("name:" ++ alnumLowerS name) else none)) ∧
    ((digitsOf phone).length = 11 →
      create_duplicate_key name phone =
        some ("phone:" ++ String.mk (lastTen (digitsOf phone)))) := by
  constructor
  · intro h9
    have hlen : (String.mk (lastTen (digitsOf phone))).length = 9 := by
      show (lastTen (digitsOf phone)).length = 9
      simp [lastTen, h9]
    have hcond : ¬(String.mk (lastTen (digitsOf phone)) ≠ "" ∧
        (String.mk (lastTen (digitsOf phone))).length = 10) := by
      intro hc
      rw [hlen] at hc
      exact absurd hc.2 (by decide)
    simp only [create_duplicate_key]
    rw [phoneNorm_eq, if_neg hcond]
  · intro h11
    have hlen : (String.mk (lastTen (digitsOf phone))).length = 10 := by
      show (lastTen (digitsOf phone)).length = 10
      simp [lastTen, h11]
    have hne : String.mk (lastTen (digitsOf phone)) ≠ "" := by
      intro he
      rw [he] at hlen
      exact absurd hlen (by decide)
    simp only [create_duplicate_key]
    rw [phoneNorm_eq, if_pos ⟨hne, hlen⟩]

/-- C7 witness: the amended statement evaluated at a 9-digit and an
11-digit concrete phone. -/
theorem c7_witness :
    create_duplicate_key "Beach Cafe" "123456789" =
      (if alnumLowerS "Beach Cafe" ≠ "" then
        some ("name:" ++ alnumLowerS "Beach Cafe") else none) ∧
    create_duplicate_key "Beach Cafe" "12345678901" =
      some ("phone:" ++ String.mk (lastTen (digitsOf "12345678901"))) :=
  ⟨(c7_amended "Beach Cafe" "123456789").1 (by decide),
   (c7_amended "Beach Cafe" "12345678901").2 (by decide)⟩

/-- `CACHE_DURATION` from processor_api.py. -/
def CACHE_DURATION : Nat := 300

/-- `MAX_RETRIES` from processor_api.py. -/
def MAX_RETRIES : Nat := 5

/-- `BASE_BACKOFF` from processor_api.py. -/
def BASE_BACKOFF : Nat := 10

/-- `MAX_LEADS_PER_DAY` from processor_api.py. -/
def MAX_LEADS_PER_DAY : Nat := 50

/-- `MAX_CAMPAIGNS_PER_DAY` from master_control.py. -/
def MAX_CAMPAIGNS_PER_DAY : Nat := 5

/-- The `SheetsCache` content: a list of (key, timestamp, data) entries,
most recent assignment first (models the Python dict). -/
def Cache (α : Type) : Type := List (String × Nat × α)

/-- `SheetsCache.get`: return the stored data while it is younger than
`CACHE_DURATION`, else behave as absent. -/
def cacheGet {α : Type} (c : Cache α) (k : String) (now : Nat) : Option α :=
  match List.lookup k c with
  | some (ts, d) => if now - ts < CACHE_DURATION then some d else none
  | none => none

/-- Errors raised by a remote sheet operation: a 429 rate-limit APIError
or any other exception. -/
inductive SheetErr where
  | rateLimit
  | otherErr
deriving DecidableEq

/-- Result of the retry loop shared by `safe_sheet_read` and
`safe_sheet_write`: final outcome, the cache as left behind, the backoff
sleeps taken, and how many attempts ran. -/
structure OpTrace (α : Type) where
  result : Except String α
  cache : Cache α
  delays : List Nat
  attempts : Nat

/-- The exhaustion message raised after the retry budget is spent:
`f"Failed {operation_name} after {max_retries} attempts"`. -/
def failMsg (opName : String) (m : Nat) : String :=
  "Failed " ++ opName ++ " after " ++ toString m ++ " attempts"

/-- The `for attempt in range(max_retries)` loop body: `op` is the remote
call, indexed by attempt number; a 429 waits `(2 ** attempt) * base`,
any other error waits a flat `base`.  Returns the first success (if
any), the list of backoff sleeps, and the number of attempts made. -/
def runAttempts {α : Type} (op : Nat → Except SheetErr α) (base : Nat) :
    Nat → Nat → Option α × List Nat × Nat
  | _, 0 => (none, [], 0)
  | i, fuel + 1 =>
    match op i with
    | Except.ok a => (some a, [], 1)
    | Except.error e =>
      let d := match e with
        | SheetErr.rateLimit => 2 ^ i * base
        | SheetErr.otherErr => base
      let r := runAttempts op base (i + 1) fuel
      (r.1, d :: r.2.1, r.2.2 + 1)

/-- `safe_sheet_read`: consult the cache when a key is supplied, else run
the retry loop; a fresh success is stored in the cache; exhaustion
raises the `failMsg` exception. -/
def safe_sheet_read {α : Type} (c : Cache α) (now : Nat)
    (op : Nat → Except SheetErr α) (opName : String) (cacheKey : Option String)
    (maxRetries base : Nat) : OpTrace α :=
  match cacheKey with
  | some k =>
    match cacheGet c k now with
    | some d => ⟨Except.ok d, c, [], 0⟩
    | none =>
      match runAttempts op base 0 maxRetries with
      | (some a, ds, n) => ⟨Except.ok a, (k, now, a) :: c, ds, n⟩
      | (none, ds, n) => ⟨Except.error (failMsg opName maxRetries), c, ds, n⟩
  | none =>
    match runAttempts op base 0 maxRetries with
    | (some a, ds, n) => ⟨Except.ok a, c, ds, n⟩
    | (none, ds, n) => ⟨Except.error (failMsg opName maxRetries), c, ds, n⟩

/-- `safe_sheet_write`: run the retry loop; on success the whole cache is
emptied (`cache.cache = {}`); exhaustion raises `failMsg`. -/
def safe_sheet_write {α : Type} (c : Cache α)
    (op : Nat → Except SheetErr α) (opName : String)
    (maxRetries base : Nat) : OpTrace α :=
  match runAttempts op base 0 maxRetries with
  | (some a, ds, n) => ⟨Except.ok a, [], ds, n⟩
  | (none, ds, n) => ⟨Except.error (failMsg opName maxRetries), c, ds, n⟩

/-- One pass of `main`'s `while True:` handler structure: a value or a
non-interrupt exception lets the loop continue; only KeyboardInterrupt
breaks out. -/
inductive IterExn where
  | keyboardInterrupt
  | leadError (msg : String)
deriving DecidableEq

/-- Whether `main`'s loop continues after an iteration outcome. -/
def mainLoopStep : Except IterExn Bool → Bool
  | Except.ok _ => true
  | Except.error IterExn.keyboardInterrupt => false
  | Except.error (IterExn.leadError _) => true

/-- Helper: when every attempt hits the rate limit the loop makes all
`fuel` attempts, sleeping `2 ^ attempt * base` before each retry. -/
theorem runAttempts_rateLimit {α : Type} (op : Nat → Except SheetErr α)
    (base : Nat) :
    ∀ (fuel i : Nat), (∀ j, j < fuel → op (i + j) = Except.error SheetErr.rateLimit) →
      runAttempts op base i fuel =
        (none, (List.range fuel).map (fun j => 2 ^ (i + j) * base), fuel) := by
  intro fuel
  induction fuel with
  | zero => intro i _; rfl
  | succ n ih =>
    intro i h
    have h0 : op i = Except.error SheetErr.rateLimit := by
      have := h 0 (Nat.succ_pos n)
      simpa using this
    have hrest : ∀ j, j < n → op (i + 1 + j) = Except.error SheetErr.rateLimit := by
      intro j hj
      have := h (j + 1) (by omega)
      have harg : i + (j + 1) = i + 1 + j := by omega
      rwa [harg] at this
    simp only [runAttempts, h0]
    rw [ih (i + 1) hrest]
    simp only [Prod.mk.injEq]
    refine ⟨trivial, ?_, trivial⟩
    rw [List.range_succ_eq_map, List.map_cons, List.map_map]
    simp only [List.cons.injEq]
    constructor
    · norm_num
    · apply List.map_congr_left
      intro j _
      simp only [Function.comp_apply]
      have harith : i + 1 + j = i + Nat.succ j := by omega
      rw [harith]

/-- Helper: a successful retry loop got its value from some attempt of
the underlying operation. -/
theorem runAttempts_ok_source {α : Type} (op : Nat → Except SheetErr α)
    (base : Nat) :
    ∀ (fuel i : Nat) (x : α) (ds : List Nat) (n : Nat),
      runAttempts op base i fuel = (some x, ds, n) →
      ∃ j, j < fuel ∧ op (i + j) = Except.ok x := by
  intro fuel
  induction fuel with
  | zero => intro i x ds n h; exact absurd h (by simp [runAttempts])
  | succ m ih =>
    intro i x ds n h
    cases hop : op i with
    | ok a =>
      simp only [runAttempts, hop, Prod.mk.injEq, Option.some.injEq] at h
      refine ⟨0, Nat.succ_pos m, ?_⟩
      rw [Nat.add_zero, hop]
      exact congrArg Except.ok h.1
    | error e =>
      simp only [runAttempts, hop, Prod.mk.injEq] at h
      have h1 := h.1
      have hX : runAttempts op base (i + 1) m =
          (some x, (runAttempts op base (i + 1) m).2.1,
            (runAttempts op base (i + 1) m).2.2) := by
        rw [← h1]
      obtain ⟨j, hj, hopj⟩ := ih (i + 1) x _ _ hX
      exact ⟨j + 1, by omega, by rwa [show i + (j + 1) = i + 1 + j by omega]⟩

/-- C4: when every attempt raises the 429 rate-limit error, both
`safe_sheet_read` (uncached) and `safe_sheet_write` make exactly
`maxRetries` attempts, sleeping `2 ^ i * base` after the failed attempt
number `i`, and end by raising the exhaustion message that names the
operation; `main`'s handler treats that exception as fatal to the
current item only — the loop continues. -/
theorem c4_backoff_exhaustion {α : Type} (op : Nat → Except SheetErr α)
    (opName : String) (c : Cache α) (now maxRetries base : Nat)
    (h : ∀ i, i < maxRetries → op i = Except.error SheetErr.rateLimit) :
    safe_sheet_read c now op opName none maxRetries base =
      ⟨Except.error (failMsg opName maxRetries), c,
        (List.range maxRetries).map (fun i => 2 ^ i * base), maxRetries⟩ ∧
    safe_sheet_write c op opName maxRetries base =
      ⟨Except.error (failMsg opName maxRetries), c,
        (List.range maxRetries).map (fun i => 2 ^ i * base), maxRetries⟩ ∧
    mainLoopStep (Except.error (IterExn.leadError (failMsg opName maxRetries))) = true := by
  have hrun := runAttempts_rateLimit op base maxRetries 0
    (by intro j hj; simpa using h j hj)
  have hrun' : runAttempts op base 0 maxRetries =
      (none, (List.range maxRetries).map (fun i => 2 ^ i * base), maxRetries) := by
    rw [hrun]
    simp
  refine ⟨?_, ?_, rfl⟩
  · simp [safe_sheet_read, hrun']
  · simp [safe_sheet_write, hrun']

/-- C4 witness: the default budget (5 retries, base backoff 10) with an
always-rate-limited read gives 5 attempts and backoffs 10,20,40,80,160. -/
theorem c4_witness :
    safe_sheet_read ([] : Cache Nat) 0 (fun _ => Except.error SheetErr.rateLimit)
        "Fetch leads" none MAX_RETRIES BASE_BACKOFF =
      ⟨Except.error (failMsg "Fetch leads" MAX_RETRIES), [],
        (List.range MAX_RETRIES).map (fun i => 2 ^ i * BASE_BACKOFF), MAX_RETRIES⟩ ∧
    (List.range MAX_RETRIES).map (fun i => 2 ^ i * BASE_BACKOFF) = [10, 20, 40, 80, 160] :=
  ⟨(c4_backoff_exhaustion (fun _ => Except.error SheetErr.rateLimit) "Fetch leads"
      [] 0 MAX_RETRIES BASE_BACKOFF (fun _ _ => rfl)).1,
   by decide⟩

/-- C6: a successful `safe_sheet_write` leaves the cache empty; every key
misses on the emptied cache; and a `safe_sheet_read` against the emptied
cache can only return a value produced by a fresh invocation of the
remote operation, which it then stores under the read's own timestamp. -/
theorem c6_cache_invalidation {α : Type} (wop rop : Nat → Except SheetErr α)
    (wname rname k : String) (c : Cache α) (m b now now' : Nat) :
    (∀ y : α, (safe_sheet_write c wop wname m b).result = Except.ok y →
      (safe_sheet_write c wop wname m b).cache = []) ∧
    (∀ k' : String, cacheGet ([] : Cache α) k' now = none) ∧
    (∀ x : α,
      (safe_sheet_read ([] : Cache α) now' rop rname (some k) m b).result = Except.ok x →
      (∃ j, j < m ∧ rop j = Except.ok x) ∧
      (safe_sheet_read ([] : Cache α) now' rop rname (some k) m b).cache =
        [(k, now', x)]) := by
  refine ⟨?_, ?_, ?_⟩
  · intro y hy
    rcases hr : runAttempts wop b 0 m with ⟨r, ds, n⟩
    cases r with
    | some a => simp [safe_sheet_write, hr]
    | none =>
      exfalso
      simp [safe_sheet_write, hr] at hy
  · intro k'
    rfl
  · intro x hx
    rcases hr : runAttempts rop b 0 m with ⟨r, ds, n⟩
    cases r with
    | none =>
      exfalso
      simp [safe_sheet_read, cacheGet, hr] at hx
    | some a =>
      have hres : a = x := by
        simpa [safe_sheet_read, cacheGet, hr] using hx
      subst hres
      constructor
      · obtain ⟨j, hj, hopj⟩ := runAttempts_ok_source rop b m 0 a ds n hr
        exact ⟨j, hj, by simpa using hopj⟩
      · simp [safe_sheet_read, cacheGet, hr]

/-- C6 witness: a concrete successful write against a populated cache
leaves it empty, the key then misses, and a follow-up read returns the
fresh remote value and stores it anew. -/
theorem c6_witness :
    (safe_sheet_write ([("leads", 5, 99)] : Cache Nat)
        (fun _ => Except.ok 7) "Save lead data" MAX_RETRIES BASE_BACKOFF).cache = [] ∧
    cacheGet ([] : Cache Nat) "leads" 6 = none ∧
    ((∃ j, j < MAX_RETRIES ∧
        (fun _ : Nat => (Except.ok 42 : Except SheetErr Nat)) j = Except.ok 42) ∧
      (safe_sheet_read ([] : Cache Nat) 6 (fun _ => Except.ok 42) "Fetch leads"
        (some "leads") MAX_RETRIES BASE_BACKOFF).cache = [("leads", 6, 42)]) := by
  obtain ⟨h1, h2, h3⟩ := c6_cache_invalidation (fun _ => Except.ok 7)
    (fun _ => Except.ok 42) "Save lead data" "Fetch leads" "leads"
    [("leads", 5, 99)] MAX_RETRIES BASE_BACKOFF 6 6
  exact ⟨h1 7 rfl, h2 "leads", h3 42 rfl⟩

/-- Persisted quota state of the processing stage
(`daily_processing_log.json`). -/
structure DailyLog where
  date : String
  processedCount : Nat
  lastProcessed : String
deriving DecidableEq

/-- `reset_daily_count_if_new_day` from processor_api.py: zero the
counter (and persist) whenever the stored date is not today. -/
def reset_daily_count_if_new_day (today : String) (log : DailyLog) : DailyLog :=
  if log.date ≠ today then ⟨today, 0, ""⟩ else log

/-- Persisted campaign counter (`daily_campaigns_log.json`). -/
structure CampaignLog where
  date : String
  processedCount : Nat
deriving DecidableEq

/-- `reset_if_new_day` from master_control.py. -/
def reset_if_new_day (today : String) (log : CampaignLog) : CampaignLog :=
  if log.date ≠ today then ⟨today, 0⟩ else log

/-- `check_daily_limit` from master_control.py: reset on day rollover,
then compare against the daily cap; at the cap it sleeps until local
midnight plus one minute and reports no capacity.  `secondsOfDay` is the
local time of day in seconds; the returned Nat is the sleep taken. -/
def check_daily_limit (today : String) (secondsOfDay maxPerDay : Nat)
    (log : CampaignLog) : Bool × CampaignLog × Nat :=
  let log' := reset_if_new_day today log
  if maxPerDay ≤ log'.processedCount then (false, log', 86400 - secondsOfDay + 60)
  else (true, log', 0)

/-- C5: when the stored date differs from today, both rollover helpers
reset the counter to 0 before any comparison, and the capacity check
answers true whenever the daily limit is positive. -/
theorem c5_quota_rollover (log : CampaignLog) (plog : DailyLog) (today : String)
    (maxPerDay secondsOfDay : Nat)
    (h1 : log.date ≠ today) (h2 : plog.date ≠ today) :
    (reset_if_new_day today log).processedCount = 0 ∧
    (reset_daily_count_if_new_day today plog).processedCount = 0 ∧
    (0 < maxPerDay → (check_daily_limit today secondsOfDay maxPerDay log).1 = true) := by
  refine ⟨?_, ?_, ?_⟩
  · simp [reset_if_new_day, h1]
  · simp [reset_daily_count_if_new_day, h2]
  · intro hpos
    have hle : ¬ maxPerDay ≤ (reset_if_new_day today log).processedCount := by
      simp [reset_if_new_day, h1]
      omega
    simp [check_daily_limit, hle]

/-- C5 witness: the spec's example, stored {"2024-01-01", 5} checked on
2024-01-02 with the daily cap 5: counter resets to 0 and capacity is
reported. -/
theorem c5_witness :
    (reset_if_new_day "2024-01-02" ⟨"2024-01-01", 5⟩).processedCount = 0 ∧
    (reset_daily_count_if_new_day "2024-01-02" ⟨"2024-01-01", 5, ""⟩).processedCount = 0 ∧
    (check_daily_limit "2024-01-02" 3600 MAX_CAMPAIGNS_PER_DAY ⟨"2024-01-01", 5⟩).1 = true := by
  obtain ⟨h1, h2, h3⟩ := c5_quota_rollover ⟨"2024-01-01", 5⟩ ⟨"2024-01-01", 5, ""⟩
    "2024-01-02" MAX_CAMPAIGNS_PER_DAY 3600 (by decide) (by decide)
  exact ⟨h1, h2, h3 (by decide)⟩

/-- One row of the RESULTS sheet, the columns this engine reads/writes
by name: Restaurant Name, Flaw Analysis, Builder Prompt, Preview URL,
Phone Number, Ice_Breaker. -/
structure ResultRow where
  name : String
  flawAnalysis : String
  builderPrompt : String
  previewUrl : String
  phone : String
  iceBreaker : String
deriving DecidableEq

/-- A value stored in the duplicate registry under a fingerprint key. -/
structure RegEntry where
  name : String
  phone : String
deriving DecidableEq

/-- The fingerprint a scan computes for a stored row: both cells are
read with `str(...).strip()` before keying. -/
def rowKey (r : ResultRow) : Option String :=
  create_duplicate_key (pyStrip r.name) (pyStrip r.phone)

/-- `DuplicateGuardian.phase1_check_before`: no key → not duplicate;
registry hit → duplicate "registry"; otherwise a fresh scan of the
result store — a hit is recorded in the registry and reported as
duplicate "sheet"; a scan error (after retries) is swallowed and the
phase reports "passed".  Returns the verdict and the registry. -/
def phase1_check_before (reg : List (String × RegEntry)) (name phone : String)
    (scan : Except String (List ResultRow)) :
    (Bool × String) × List (String × RegEntry) :=
  match create_duplicate_key name phone with
  | none => ((false, "no_key"), reg)
  | some k =>
    match List.lookup k reg with
    | some _ => ((true, "registry"), reg)
    | none =>
      match scan with
      | Except.error _ => ((false, "passed"), reg)
      | Except.ok rows =>
        match rows.find? (fun r => rowKey r == some k) with
        | some r => ((true, "sheet"), (k, ⟨pyStrip r.name, pyStrip r.phone⟩) :: reg)
        | none => ((false, "passed"), reg)

/-- `DuplicateGuardian.phase2_check_during`: fresh direct scan; a scan
error returns not-duplicate with reason "error". -/
def phase2_check_during (name phone : String)
    (scan : Except String (List ResultRow)) : Bool × String :=
  match create_duplicate_key name phone with
  | none => (false, "no_key")
  | some k =>
    match scan with
    | Except.error _ => (false, "error")
    | Except.ok rows =>
      if rows.any (fun r => rowKey r == some k) then (true, "concurrent")
      else (false, "passed")

/-- 0-based indices of the stored rows whose fingerprint equals `k`
(phase 3 records them as sheet row numbers `idx + 2`). -/
def matchIdxs (k : String) : List ResultRow → List Nat
  | [] => []
  | r :: rs =>
    if rowKey r = some k then 0 :: (matchIdxs k rs).map (· + 1)
    else (matchIdxs k rs).map (· + 1)

/-- Number of stored rows bearing fingerprint `k`. -/
def countKey (k : String) (rows : List ResultRow) : Nat := (matchIdxs k rows).length

/-- `results_worksheet.delete_rows(n)` on the data model: sheet row `n`
is data index `n - 2`; a row number beyond the data leaves the data
unchanged (the grid row is blank, or the API error is caught). -/
def deleteRowNum (rows : List ResultRow) (n : Nat) : List ResultRow :=
  rows.eraseIdx (n - 2)

/-- `DuplicateGuardian.phase3_verify_after`: scan for the fingerprint;
zero matches is catastrophic ("missing"); exactly one match updates the
registry ("verified"); several matches delete every match except the
first by their original sheet row numbers, in order ("cleaned" — the
registry is not touched on this path).  Returns the verdict, the
registry, and the rows left in the store. -/
def phase3_verify_after (reg : List (String × RegEntry)) (name phone : String)
    (rows : List ResultRow) :
    (Bool × String) × List (String × RegEntry) × List ResultRow :=
  match create_duplicate_key name phone with
  | none => ((true, "no_key"), reg, rows)
  | some k =>
    match (matchIdxs k rows).map (· + 2) with
    | [] => ((false, "missing"), reg, rows)
    | [_] => ((true, "verified"), (k, ⟨name, phone⟩) :: reg, rows)
    | _ :: rest => ((true, "cleaned"), reg, rest.foldl deleteRowNum rows)

/-- C10: given a fingerprint and no registry shortcut, an erroring
remote scan makes Phase 1 report "passed" (not duplicate) and Phase 2
report not-duplicate with reason "error": the duplicate checks fail
open, so the orchestrator proceeds as if the item were new. -/
theorem c10_fail_open (reg : List (String × RegEntry)) (name phone k e1 e2 : String)
    (hk : create_duplicate_key name phone = some k)
    (hreg : List.lookup k reg = none) :
    phase1_check_before reg name phone (Except.error e1) = ((false, "passed"), reg) ∧
    phase2_check_during name phone (Except.error e2) = (false, "error") := by
  constructor
  · simp [phase1_check_before, hk, hreg]
  · simp [phase2_check_during, hk]

/-- C10 witness: a concrete item with a name fingerprint, an empty
registry and a failing scan. -/
theorem c10_witness :
    phase1_check_before [] "Cafe X" "" (Except.error "APIError 500") =
      ((false, "passed"), []) ∧
    phase2_check_during "Cafe X" "" (Except.error "APIError 500") = (false, "error") :=
  c10_fail_open [] "Cafe X" "" "name:cafex" "APIError 500" "APIError 500"
    (by decide) rfl

/-- Helper: invert a successor-map equal to a singleton. -/
theorem map_succ_eq_singleton {l : List Nat} {j : Nat}
    (h : l.map (· + 1) = [j]) : ∃ a, l = [a] ∧ j = a + 1 := by
  cases l with
  | nil => simp at h
  | cons a t =>
    cases t with
    | nil =>
      simp only [List.map_cons, List.map_nil, List.cons.injEq, and_true] at h
      exact ⟨a, rfl, h.symm⟩
    | cons b u => simp at h

/-- Helper: invert a successor-map equal to a two-element list. -/
theorem map_succ_eq_pair {l : List Nat} {i j : Nat}
    (h : l.map (· + 1) = [i, j]) : ∃ a b, l = [a, b] ∧ i = a + 1 ∧ j = b + 1 := by
  cases l with
  | nil => simp at h
  | cons a t =>
    cases t with
    | nil => simp at h
    | cons b u =>
      cases u with
      | nil =>
        simp only [List.map_cons, List.map_nil, List.cons.injEq, and_true] at h
        exact ⟨a, b, rfl, h.1.symm, h.2.symm⟩
      | cons c v => simp at h

/-- Helper: erasing the unique matching index removes every match. -/
theorem matchIdxs_singleton_erase (k : String) :
    ∀ (rows : List ResultRow) (j : Nat), matchIdxs k rows = [j] →
      matchIdxs k (rows.eraseIdx j) = [] := by
  intro rows
  induction rows with
  | nil => intro j h; exact absurd h (by simp [matchIdxs])
  | cons r rs ih =>
    intro j h
    by_cases hr : rowKey r = some k
    · simp only [matchIdxs, if_pos hr, List.cons.injEq] at h
      obtain ⟨hj, hmap⟩ := h
      have hnil : matchIdxs k rs = [] := by
        cases hrs : matchIdxs k rs with
        | nil => rfl
        | cons x xs => rw [hrs] at hmap; simp at hmap
      subst hj
      show matchIdxs k rs = []
      exact hnil
    · simp only [matchIdxs, if_neg hr] at h
      obtain ⟨a, hl, hj⟩ := map_succ_eq_singleton h
      subst hj
      show matchIdxs k (r :: rs.eraseIdx a) = []
      simp only [matchIdxs, if_neg hr]
      rw [ih a hl]
      rfl

/-- Helper: with exactly two matching indices, erasing the second keeps
exactly the first. -/
theorem matchIdxs_pair_erase (k : String) :
    ∀ (rows : List ResultRow) (i j : Nat), matchIdxs k rows = [i, j] →
      matchIdxs k (rows.eraseIdx j) = [i] := by
  intro rows
  induction rows with
  | nil => intro i j h; exact absurd h (by simp [matchIdxs])
  | cons r rs ih =>
    intro i j h
    by_cases hr : rowKey r = some k
    · simp only [matchIdxs, if_pos hr, List.cons.injEq] at h
      obtain ⟨hi, hmap⟩ := h
      obtain ⟨a, hl, hj⟩ := map_succ_eq_singleton hmap
      subst hi
      subst hj
      show matchIdxs k (r :: rs.eraseIdx a) = [0]
      simp only [matchIdxs, if_pos hr]
      rw [matchIdxs_singleton_erase k rs a hl]
      rfl
    · simp only [matchIdxs, if_neg hr] at h
      obtain ⟨a, b, hl, hi, hj⟩ := map_succ_eq_pair h
      subst hi
      subst hj
      show matchIdxs k (r :: rs.eraseIdx b) = [a + 1]
      simp only [matchIdxs, if_neg hr]
      rw [ih a b hl]
      rfl

/-- A stored row used to exhibit phase 3's cleanup behavior. -/
def dupRow : ResultRow :=
  ⟨"Dup Cafe", "flaw text", "prompt", "http://u", "1234567890", "ice text"⟩

/-- A stored row with a different fingerprint. -/
def otherRow : ResultRow :=
  ⟨"Other Place", "flaw", "prompt", "http://o", "0987654321", "ice"⟩

/-- C3 counterexample: with three rows bearing one fingerprint, the
sequential delete-by-original-row-number leaves TWO matching rows (the
second delete aims past the already-shrunken sheet), and the registry is
not updated in the cleanup branch either — against the claim that every
matching row but the first is deleted and the registry then updated. -/
theorem c3_counterexample :
    countKey "phone:1234567890"
        (phase3_verify_after [] "Dup Cafe" "1234567890"
          [dupRow, dupRow, dupRow]).2.2 = 2 ∧
    (phase3_verify_after [] "Dup Cafe" "1234567890"
        [dupRow, dupRow, dupRow]).2.1 = [] := by
  decide

/-- C3 (amended): when exactly two stored rows bear the fingerprint,
Phase 3 deletes the later one, leaving exactly the earliest match; the
local registry is NOT updated on this cleanup path (only the
single-match branch updates it). -/
theorem c3_amended (reg : List (String × RegEntry)) (name phone k : String)
    (rows : List ResultRow) (i j : Nat)
    (hk : create_duplicate_key name phone = some k)
    (hm : matchIdxs k rows = [i, j]) :
    phase3_verify_after reg name phone rows =
      ((true, "cleaned"), reg, rows.eraseIdx j) ∧
    matchIdxs k (rows.eraseIdx j) = [i] := by
  constructor
  · simp only [phase3_verify_after, hk, hm, List.map_cons, List.map_nil]
    simp [deleteRowNum]
  · exact matchIdxs_pair_erase k rows i j hm

/-- C3 witness: a store with two rows for the fingerprint (separated by
an unrelated row) is healed to exactly the earliest one, registry
untouched. -/
theorem c3_witness :
    phase3_verify_after [] "Dup Cafe" "1234567890" [dupRow, otherRow, dupRow] =
      ((true, "cleaned"), [],
        ([dupRow, otherRow, dupRow] : List ResultRow).eraseIdx 2) ∧
    matchIdxs "phone:1234567890"
        (([dupRow, otherRow, dupRow] : List ResultRow).eraseIdx 2) = [0] :=
  c3_amended [] "Dup Cafe" "1234567890" "phone:1234567890"
    [dupRow, otherRow, dupRow] 0 2 (by decide) (by decide)

/-- The phone map `PhoneSyncGuardian` builds from the LEADS sheet:
normalized name → phone cell ("No Number" when blank). -/
def PhoneMap : Type := List (String × String)

/-- `PhoneSyncGuardian.phase2_get_correct_phone`: the mapped phone when
the normalized name is known, else the provided phone, else
"No Number". -/
def phase2_get_correct_phone (pm : PhoneMap) (name provided : String) : String :=
  match List.lookup (alnumLowerS name) pm with
  | some p => p
  | none => if provided ≠ "" then provided else "No Number"

/-- `PreviewURLGuardian.phase1_generate`'s
`re.sub(r'[^a-z0-9]+', '-', name.lower()).strip('-')`. -/
def projectId (name : String) : String :=
  String.mk (pyStripChar '-' (collapseChar '-'
    ((name.data.map Char.toLower).map (fun c => if isLowerAlnum c then c else '-'))))

/-- `PreviewURLGuardian.BASE_URL`. -/
def BASE_URL : String := "https://lead-gen-engine.vercel.app"

/-- `PreviewURLGuardian.phase1_generate`. -/
def phase1_generate (name : String) : String :=
  BASE_URL ++ "/?client=" ++ projectId name

/-- `PreviewURLGuardian.phase2_embed_in_icebreaker`: no-op when the URL
is already present, else append ". Preview: <url>"-style text,
completing the sentence first. -/
def phase2_embed_in_icebreaker (ice url : String) : String :=
  if containsSub ice url then ice
  else
    let ice2 :=
      if ice.endsWith "." || ice.endsWith "!" || ice.endsWith "?" then ice
      else ice ++ "."
    ice2 ++ " Preview: " ++ url

/-- `LeadData` from processor_api.py. -/
structure LeadData where
  restaurantName : String
  phone : String
  websiteUrl : String
  flawAnalysis : String
  builderPrompt : String
  previewUrl : String
  iceBreaker : String
  rowIndex : Nat
deriving DecidableEq

/-- `LeadData.to_sheet_row` restricted to the named columns the engine
later reads back (name, flaw analysis, builder prompt, preview URL,
phone at column 6, ice breaker at column 16). -/
def toResultRow (d : LeadData) : ResultRow :=
  ⟨d.restaurantName, d.flawAnalysis, d.builderPrompt, d.previewUrl, d.phone,
    d.iceBreaker⟩

/-- `DataIntegrityGuardian.validate_row_structure`. -/
def validate_row_structure (d : LeadData) : Bool :=
  !(decide (d.restaurantName = "")) &&
  (!(decide (d.flawAnalysis = "")) && decide (20 ≤ d.flawAnalysis.length)) &&
  (!(decide (d.previewUrl = "")) && containsSub d.previewUrl "lead-gen-engine") &&
  (!(decide (d.iceBreaker = "")) && decide (20 ≤ d.iceBreaker.length)) &&
  containsSub d.iceBreaker d.previewUrl

/-- `PhoneSyncGuardian.phase3_verify_sync`: find the first row whose
normalized name matches; report true and fix the phone cell in place
when it differs from the expected phone; false when no row matches. -/
def phase3_verify_sync (name expected : String) :
    List ResultRow → Bool × List ResultRow
  | [] => (false, [])
  | r :: rs =>
    if alnumLowerS (pyStrip r.name) = alnumLowerS name then
      if pyStrip r.phone = expected then (true, r :: rs)
      else (true, { r with phone := expected } :: rs)
    else
      let rest := phase3_verify_sync name expected rs
      (rest.1, r :: rest.2)

/-- `PreviewURLGuardian.phase3_verify_saved`: find the first row whose
normalized name matches; verify the URL is in the Preview URL column and
inside the ice breaker, fixing either in place; false when no row
matches. -/
def phase3_verify_saved (name url : String) :
    List ResultRow → Bool × List ResultRow
  | [] => (false, [])
  | r :: rs =>
    if alnumLowerS (pyStrip r.name) = alnumLowerS name then
      let urlInCol := containsSub (pyStrip r.previewUrl) url
      let urlInIce := containsSub (pyStrip r.iceBreaker) url
      if urlInCol && urlInIce then (true, r :: rs)
      else
        let r1 := if urlInCol then r else { r with previewUrl := url }
        let r2 :=
          if urlInIce then r1
          else { r1 with
            iceBreaker := phase2_embed_in_icebreaker (pyStrip r.iceBreaker) url }
        (true, r2 :: rs)
    else
      let rest := phase3_verify_saved name url rs
      (rest.1, r :: rest.2)

/-- `DataIntegrityGuardian.verify_saved_columns`: on the first row whose
normalized (unstripped) name matches, all four column checks must
pass. -/
def verify_saved_columns (name : String) (d : LeadData) :
    List ResultRow → Bool
  | [] => false
  | r :: rs =>
    if alnumLowerS r.name = alnumLowerS name then
      decide (r.name = d.restaurantName) && decide (r.previewUrl = d.previewUrl) &&
      decide (r.phone = d.phone) && containsSub r.iceBreaker d.previewUrl
    else verify_saved_columns name d rs

/-- The simplified fetch/analyze section of
`process_lead_fully_supervised` (the point where the fetch and text
generation collaborators are invoked): produces (flaw analysis, builder
prompt, ice breaker). -/
def runAnalysis (name url previewUrl : String) : String × String × String :=
  if url = "" || toLowerStr url = "no website found" || toLowerStr url = "n/a" then
    ("No website found. Cannot perform analysis.",
     "Create a modern, mobile-friendly website.",
     "Hi, I noticed " ++ name ++
       " doesn\x27t have a website—that\x27s costing you 60%+ of customers. Preview: " ++
       previewUrl ++ " Can I show you how to launch in 24 hours?")
  else
    ("Website analysis for " ++ name,
     "Template-based fixes",
     "Quick note about " ++ name ++ ". Preview: " ++ previewUrl)

/-- Observable side effects of one lead-processing run. -/
inductive Ev where
  | analysisRun (name url : String)
  | appendedRow
deriving DecidableEq

/-- Mutable engine state: the duplicate registry, the RESULTS rows, and
the status-cell writes to the LEADS sheet (latest first). -/
structure EngineState where
  registry : List (String × RegEntry)
  results : List ResultRow
  statusWrites : List (Nat × String)
deriving DecidableEq

/-- `leads_worksheet.update_cell(row, 6, v)`. -/
def setStatus (row : Nat) (v : String) (s : EngineState) : EngineState :=
  { s with statusWrites := (row, v) :: s.statusWrites }

/-- The current status cell of a LEADS row (latest write wins). -/
def statusOf (row : Nat) (s : EngineState) : Option String :=
  List.lookup row s.statusWrites

/-- `MasterOrchestrator.process_lead_fully_supervised` with all sheet
operations succeeding: Phase-1 duplicate check (duplicates are marked
"Complete - Duplicate"), phone-sync correction, preview URL generation,
"Processing..." marker (timestamp suffix elided), the fetch/analyze
section, validation, Phase-2 re-check, append, Phase-3 verification plus
phone/URL/column verification, and the final "Complete" marker.  Returns
(success, new state, event trace). -/
def process_lead_fully_supervised (pm : PhoneMap) (s : EngineState) (row : Nat)
    (name0 phone0 url0 : String) : Bool × EngineState × List Ev :=
  let name := pyStrip name0
  let phoneRaw := pyStrip phone0
  let url := pyStrip url0
  let p1 := phase1_check_before s.registry name phoneRaw (Except.ok s.results)
  let s1 : EngineState := { s with registry := p1.2 }
  if p1.1.1 then
    (false, setStatus row "Complete - Duplicate" s1, [])
  else
    let correctPhone := phase2_get_correct_phone pm name phoneRaw
    let previewUrl := phase1_generate name
    let s2 := setStatus row "Processing..." s1
    let anal := runAnalysis name url previewUrl
    let iceBreaker := phase2_embed_in_icebreaker anal.2.2 previewUrl
    let d : LeadData :=
      ⟨name, correctPhone, url, anal.1, anal.2.1, previewUrl, iceBreaker, row⟩
    if validate_row_structure d = false then
      (false, s2, [Ev.analysisRun name url])
    else
      let p2 := phase2_check_during name correctPhone (Except.ok s2.results)
      if p2.1 then
        (false, setStatus row "Complete - Duplicate" s2, [Ev.analysisRun name url])
      else
        let rows1 := s2.results ++ [toResultRow d]
        let v3 := phase3_verify_after s2.registry name correctPhone rows1
        let sy := phase3_verify_sync name correctPhone v3.2.2
        let pv := phase3_verify_saved name previewUrl sy.2
        let colsOk := verify_saved_columns name d pv.2
        let s3 : EngineState := { s2 with registry := v3.2.1, results := pv.2 }
        if v3.1.1 && sy.1 && pv.1 && colsOk then
          (true, setStatus row "Complete" s3, [Ev.analysisRun name url, Ev.appendedRow])
        else
          (false, s3, [Ev.analysisRun name url, Ev.appendedRow])

/-- One LEADS row as read by `main`. -/
structure LeadRecord where
  name : String
  phone : String
  url : String
  status : String
deriving DecidableEq

/-- `main`'s scan for the first lead whose Status is "pending"
(stripped, lowercased). -/
def findPendingIdx : List LeadRecord → Option (Nat × LeadRecord)
  | [] => none
  | l :: ls =>
    if toLowerStr (pyStrip l.status) = "pending" then some (0, l)
    else (findPendingIdx ls).map (fun p => (p.1 + 1, p.2))

/-- Outcome of one pass of `main`'s loop body. -/
inductive IterOutcome where
  | processedLead (rowIndex : Nat) (success : Bool)
  | noPending
deriving DecidableEq

/-- One iteration of `main`'s `while True:` body (rest-manager and
health checks elided): fetch the leads, process the first pending one
fully supervised, or report that none is pending.  Note it consults no
daily-quota state at all. -/
def mainIteration (pm : PhoneMap) (s : EngineState) (leads : List LeadRecord) :
    IterOutcome × EngineState × List Ev :=
  match findPendingIdx leads with
  | none => (IterOutcome.noPending, s, [])
  | some (i, l) =>
    let r := process_lead_fully_supervised pm s (i + 2) l.name l.phone l.url
    (IterOutcome.processedLead (i + 2) r.1, r.2.1, r.2.2)

/-- Helper: whitespace characters are not lowercase alphanumerics, even
after lowercasing. -/
theorem pySpace_not_alnumLower (c : Char) (hc : isPySpace c = true) :
    isLowerAlnum (Char.toLower c) = false := by
  simp only [isPySpace, Bool.or_eq_true, beq_iff_eq] at hc
  rcases hc with ((((h | h) | h) | h) | h) | h <;> subst h <;> decide

/-- Helper: whitespace characters are not digits. -/
theorem pySpace_not_digit (c : Char) (hc : isPySpace c = true) :
    Char.isDigit c = false := by
  simp only [isPySpace, Bool.or_eq_true, beq_iff_eq] at hc
  rcases hc with ((((h | h) | h) | h) | h) | h <;> subst h <;> decide

/-- Helper: dropping a `q`-prefix does not change a `filter` that
rejects everything `q` accepts (up to a common `map`). -/
theorem filter_map_dropWhile (p q : Char → Bool) (f : Char → Char)
    (h : ∀ c, q c = true → p (f c) = false) :
    ∀ l : List Char, ((l.dropWhile q).map f).filter p = (l.map f).filter p := by
  intro l
  induction l with
  | nil => rfl
  | cons c cs ih =>
    by_cases hq : q c = true
    · rw [List.dropWhile_cons, if_pos hq, ih]
      simp [List.filter_cons, h c hq]
    · rw [List.dropWhile_cons, if_neg hq]

/-- Helper: stripping a `q`-run from either end does not change such a
`filter` either. -/
theorem filter_map_pyStripP (p q : Char → Bool) (f : Char → Char)
    (h : ∀ c, q c = true → p (f c) = false) (l : List Char) :
    ((pyStripP q l).map f).filter p = (l.map f).filter p := by
  unfold pyStripP
  rw [List.map_reverse, List.filter_reverse, filter_map_dropWhile p q f h,
    List.map_reverse, List.filter_reverse, List.reverse_reverse,
    filter_map_dropWhile p q f h]

/-- Helper: the scan's name normalization ignores Python `strip`. -/
theorem alnumLower_pyStrip (s : String) : alnumLowerS (pyStrip s) = alnumLowerS s := by
  show String.mk _ = String.mk _
  exact congrArg String.mk
    (filter_map_pyStripP isLowerAlnum isPySpace Char.toLower pySpace_not_alnumLower s.data)

/-- Helper: the digit extraction ignores Python `strip`. -/
theorem digits_pyStrip (s : String) : digitsOf (pyStrip s) = digitsOf s := by
  have h := filter_map_pyStripP Char.isDigit isPySpace id pySpace_not_digit s.data
  simpa [digitsOf] using h

/-- Helper: the fingerprint ignores Python `strip` on both inputs. -/
theorem create_duplicate_key_pyStrip (a b : String) :
    create_duplicate_key (pyStrip a) (pyStrip b) = create_duplicate_key a b := by
  simp only [create_duplicate_key]
  rw [phoneNorm_eq (pyStrip b), phoneNorm_eq b, digits_pyStrip b, alnumLower_pyStrip a]

/-- Helper: the empty list is a Boolean prefix of every list. -/
theorem nil_isPrefixOf (l : List Char) : ([] : List Char).isPrefixOf l = true := by
  cases l <;> rfl

/-- Helper: a list is a Boolean prefix of itself followed by anything. -/
theorem isPrefixOf_append (u : List Char) :
    ∀ v : List Char, u.isPrefixOf (u ++ v) = true := by
  induction u with
  | nil => intro v; exact nil_isPrefixOf _
  | cons c cs ih => intro v; simp [List.isPrefixOf, ih]

/-- Helper: Boolean prefixes persist under appending on the right. -/
theorem isPrefixOf_mono : ∀ (u l v : List Char),
    u.isPrefixOf l = true → u.isPrefixOf (l ++ v) = true := by
  intro u
  induction u with
  | nil => intro l v _; exact nil_isPrefixOf _
  | cons c cs ih =>
    intro l v h
    cases l with
    | nil => simp [List.isPrefixOf] at h
    | cons a as =>
      simp only [List.cons_append, List.isPrefixOf, Bool.and_eq_true] at h ⊢
      exact ⟨h.1, ih as v h.2⟩

/-- Helper: the empty list occurs in every list. -/
theorem containsList_nil_sub : ∀ b : List Char, containsList [] b = true := by
  intro b
  cases b <;> simp [containsList, List.isPrefixOf]

/-- Helper: containment persists when appending on the right. -/
theorem containsList_append_left (u : List Char) :
    ∀ a b : List Char, containsList u a = true → containsList u (a ++ b) = true := by
  intro a
  induction a with
  | nil =>
    intro b h
    simp only [containsList, List.isEmpty_iff] at h
    subst h
    exact containsList_nil_sub b
  | cons c cs ih =>
    intro b h
    simp only [containsList, Bool.or_eq_true, List.cons_append] at h ⊢
    rcases h with h | h
    · exact Or.inl (isPrefixOf_mono u (c :: cs) b h)
    · exact Or.inr (ih b h)

/-- Helper: a list occurs at the end of anything it is appended to. -/
theorem containsList_append_right (u : List Char) :
    ∀ a : List Char, containsList u (a ++ u) = true := by
  intro a
  induction a with
  | nil =>
    cases u with
    | nil => rfl
    | cons c cs =>
      simp only [List.nil_append, containsList, Bool.or_eq_true]
      left
      have h := isPrefixOf_append (c :: cs) []
      rwa [List.append_nil] at h
  | cons c cs ih =>
    simp only [List.cons_append, containsList, Bool.or_eq_true]
    exact Or.inr ih

/-- Helper: string containment of a final append segment. -/
theorem containsSub_append_right (a u : String) : containsSub (a ++ u) u = true := by
  show containsList u.data (a ++ u).data = true
  rw [String.data_append]
  exact containsList_append_right u.data a.data

/-- Helper: string containment persists when appending on the right. -/
theorem containsSub_prefix_part (a b u : String) (h : containsSub a u = true) :
    containsSub (a ++ b) u = true := by
  show containsList u.data (a ++ b).data = true
  rw [String.data_append]
  exact containsList_append_left u.data a.data b.data h

/-- Helper: the embedded ice breaker always contains the preview URL. -/
theorem embed_contains (ice url : String) :
    containsSub (phase2_embed_in_icebreaker ice url) url = true := by
  unfold phase2_embed_in_icebreaker
  by_cases h : containsSub ice url = true
  · simp only [if_pos h]
    exact h
  · simp only [h, Bool.false_eq_true, if_false]
    exact containsSub_append_right _ url

/-- Helper: embedding is a no-op when the URL is already present. -/
theorem embed_noop_of_contains (ice url : String)
    (h : containsSub ice url = true) :
    phase2_embed_in_icebreaker ice url = ice := by
  unfold phase2_embed_in_icebreaker
  simp [h]

/-- Helper: both analysis branches put the preview URL inside the ice
breaker they produce. -/
theorem runAnalysis_ice_contains (name url pv : String) :
    containsSub (runAnalysis name url pv).2.2 pv = true := by
  unfold runAnalysis
  split
  · exact containsSub_prefix_part _ _ pv (containsSub_append_right _ pv)
  · exact containsSub_append_right _ pv

/-- Helper: a string of positive length is non-empty. -/
theorem ne_empty_of_length_pos (s : String) (h : 0 < s.length) : s ≠ "" := by
  intro he
  rw [he] at h
  exact absurd h (by decide)

/-- Helper: the flaw analysis text is non-empty and at least 20
characters in both analysis branches. -/
theorem runAnalysis_flaw_facts (name url pv : String) :
    (runAnalysis name url pv).1 ≠ "" ∧ 20 ≤ (runAnalysis name url pv).1.length := by
  unfold runAnalysis
  split
  · constructor
    · show ("No website found. Cannot perform analysis." : String) ≠ ""
      decide
    · show 20 ≤ ("No website found. Cannot perform analysis." : String).length
      decide
  · have h : ("Website analysis for " : String).length = 21 := by decide
    constructor
    · apply ne_empty_of_length_pos
      simp only [String.length_append]
      omega
    · simp only [String.length_append]
      omega

/-- Helper: the ice breaker text is non-empty and at least 20
characters in both analysis branches. -/
theorem runAnalysis_ice_facts (name url pv : String) :
    (runAnalysis name url pv).2.2 ≠ "" ∧ 20 ≤ (runAnalysis name url pv).2.2.length := by
  unfold runAnalysis
  split
  · have h1 : ("Hi, I noticed " : String).length = 14 := by decide
    have h3 : (" Can I show you how to launch in 24 hours?" : String).length = 42 := by
      decide
    constructor
    · apply ne_empty_of_length_pos
      simp only [String.length_append]
      omega
    · simp only [String.length_append]
      omega
  · have h1 : ("Quick note about " : String).length = 17 := by decide
    have h2 : ((". Preview: " : String)).length = 11 := by decide
    constructor
    · apply ne_empty_of_length_pos
      simp only [String.length_append]
      omega
    · simp only [String.length_append]
      omega

/-- Helper: the generated preview URL is non-empty and contains
"lead-gen-engine". -/
theorem phase1_generate_facts (name : String) :
    phase1_generate name ≠ "" ∧
    containsSub (phase1_generate name) "lead-gen-engine" = true := by
  constructor
  · apply ne_empty_of_length_pos
    unfold phase1_generate
    simp only [String.length_append]
    have hB : (BASE_URL : String).length = 34 := by decide
    omega
  · unfold phase1_generate
    exact containsSub_prefix_part _ _ _ (by decide)

/-- Helper: any lead data assembled the way
`process_lead_fully_supervised` assembles it passes
`validate_row_structure`, provided the (stripped) name is non-empty. -/
theorem validate_holds (row : Nat) (name url cp : String) (hname : name ≠ "") :
    validate_row_structure
      ⟨name, cp, url, (runAnalysis name url (phase1_generate name)).1,
        (runAnalysis name url (phase1_generate name)).2.1, phase1_generate name,
        phase2_embed_in_icebreaker (runAnalysis name url (phase1_generate name)).2.2
          (phase1_generate name), row⟩ = true := by
  have hflaw := runAnalysis_flaw_facts name url (phase1_generate name)
  have hice := runAnalysis_ice_facts name url (phase1_generate name)
  have hpv := phase1_generate_facts name
  have hcontains := runAnalysis_ice_contains name url (phase1_generate name)
  have hnoop := embed_noop_of_contains _ _ hcontains
  unfold validate_row_structure
  simp only [hnoop, Bool.and_eq_true, Bool.not_eq_true', decide_eq_false_iff_not,
    decide_eq_true_eq]
  exact ⟨⟨⟨⟨hname, hflaw⟩, hpv⟩, hice⟩, hcontains⟩

/-- Helper: Phase 1 passes when the key is fresh everywhere. -/
theorem phase1_passes (reg : List (String × RegEntry)) (nm ph k : String)
    (rows : List ResultRow) (hk : create_duplicate_key nm ph = some k)
    (hreg : List.lookup k reg = none) (hrows : ∀ r ∈ rows, rowKey r ≠ some k) :
    phase1_check_before reg nm ph (Except.ok rows) = ((false, "passed"), reg) := by
  have hfind : rows.find? (fun r => rowKey r == some k) = none := by
    rw [List.find?_eq_none]
    intro r hr
    simp [hrows r hr]
  simp [phase1_check_before, hk, hreg, hfind]

/-- Helper: Phase 1 short-circuits on a registry hit. -/
theorem phase1_registry_hits (reg : List (String × RegEntry)) (nm ph k : String)
    (e : RegEntry) (scan : Except String (List ResultRow))
    (hk : create_duplicate_key nm ph = some k)
    (hreg : List.lookup k reg = some e) :
    phase1_check_before reg nm ph scan = ((true, "registry"), reg) := by
  simp [phase1_check_before, hk, hreg]

/-- Helper: Phase 2 passes when the key is absent from the store. -/
theorem phase2_passes (nm ph k : String) (rows : List ResultRow)
    (hk : create_duplicate_key nm ph = some k)
    (hrows : ∀ r ∈ rows, rowKey r ≠ some k) :
    phase2_check_during nm ph (Except.ok rows) = (false, "passed") := by
  have hany : rows.any (fun r => rowKey r == some k) = false := by
    rw [List.any_eq_false]
    intro r hr
    simp [hrows r hr]
  simp [phase2_check_during, hk, hany]

/-- Helper: appending a single matching row to a non-matching store
yields exactly one match, at the appended position. -/
theorem matchIdxs_append_single (k : String) (y : ResultRow)
    (hy : rowKey y = some k) :
    ∀ xs : List ResultRow, (∀ r ∈ xs, rowKey r ≠ some k) →
      matchIdxs k (xs ++ [y]) = [xs.length] := by
  intro xs
  induction xs with
  | nil => intro _; simp [matchIdxs, hy]
  | cons r rs ih =>
    intro h
    have hr : rowKey r ≠ some k := h r (by simp)
    simp only [List.cons_append, matchIdxs, if_neg hr, List.append_eq]
    rw [ih (fun x hx => h x (by simp [hx]))]
    simp

/-- Helper: Phase 3 verifies and updates the registry on a unique
match. -/
theorem phase3_verified (reg : List (String × RegEntry)) (nm ph k : String)
    (rows : List ResultRow) (i : Nat)
    (hk : create_duplicate_key nm ph = some k) (hm : matchIdxs k rows = [i]) :
    phase3_verify_after reg nm ph rows =
      ((true, "verified"), (k, ⟨nm, ph⟩) :: reg, rows) := by
  simp [phase3_verify_after, hk, hm]

/-- Helper: the phone sync pass walks past rows with other names. -/
theorem sync_skip (nm e : String) :
    ∀ (xs l : List ResultRow),
      (∀ r ∈ xs, alnumLowerS (pyStrip r.name) ≠ alnumLowerS nm) →
      phase3_verify_sync nm e (xs ++ l) =
        ((phase3_verify_sync nm e l).1, xs ++ (phase3_verify_sync nm e l).2) := by
  intro xs
  induction xs with
  | nil => intro l _; simp
  | cons r rs ih =>
    intro l h
    have hr : alnumLowerS (pyStrip r.name) ≠ alnumLowerS nm := h r (by simp)
    simp only [List.cons_append, phase3_verify_sync, if_neg hr, List.append_eq]
    rw [ih l (fun x hx => h x (by simp [hx]))]

/-- Helper: the phone sync pass confirms a matching row whose phone cell
already equals the expected phone, leaving the store unchanged. -/
theorem sync_self (nm e : String) (r : ResultRow)
    (hmatch : alnumLowerS (pyStrip r.name) = alnumLowerS nm)
    (hphone : r.phone = e) :
    phase3_verify_sync nm e [r] = (true, [r]) := by
  simp only [phase3_verify_sync, if_pos hmatch]
  by_cases hs : pyStrip r.phone = e
  · simp [hs]
  · simp only [if_neg hs]
    subst hphone
    rfl

/-- Helper: the preview URL pass walks past rows with other names. -/
theorem pv_skip (nm url : String) :
    ∀ (xs l : List ResultRow),
      (∀ r ∈ xs, alnumLowerS (pyStrip r.name) ≠ alnumLowerS nm) →
      phase3_verify_saved nm url (xs ++ l) =
        ((phase3_verify_saved nm url l).1, xs ++ (phase3_verify_saved nm url l).2) := by
  intro xs
  induction xs with
  | nil => intro l _; simp
  | cons r rs ih =>
    intro l h
    have hr : alnumLowerS (pyStrip r.name) ≠ alnumLowerS nm := h r (by simp)
    simp only [List.cons_append, phase3_verify_saved, if_neg hr, List.append_eq]
    rw [ih l (fun x hx => h x (by simp [hx]))]

/-- Helper: on a matching row carrying the expected preview URL and an
ice breaker containing it, the preview pass reports true and can only
rewrite the ice breaker, never the identity columns. -/
theorem pv_self (nm url : String) (r : ResultRow)
    (hmatch : alnumLowerS (pyStrip r.name) = alnumLowerS nm)
    (hpv : r.previewUrl = url) (hice : containsSub r.iceBreaker url = true) :
    ∃ r2 : ResultRow, phase3_verify_saved nm url [r] = (true, [r2]) ∧
      r2.name = r.name ∧ r2.phone = r.phone ∧ r2.previewUrl = url ∧
      containsSub r2.iceBreaker url = true := by
  simp only [phase3_verify_saved, if_pos hmatch]
  by_cases h1 : containsSub (pyStrip r.previewUrl) url = true
  · by_cases h2 : containsSub (pyStrip r.iceBreaker) url = true
    · refine ⟨r, ?_, rfl, rfl, hpv, hice⟩
      simp [h1, h2]
    · refine ⟨{ r with iceBreaker :=
          phase2_embed_in_icebreaker (pyStrip r.iceBreaker) url }, ?_, rfl, rfl, hpv,
          embed_contains _ _⟩
      simp [h1, h2]
  · by_cases h2 : containsSub (pyStrip r.iceBreaker) url = true
    · refine ⟨{ r with previewUrl := url }, ?_, rfl, rfl, rfl, hice⟩
      simp [h1, h2]
    · refine ⟨{ r with previewUrl := url, iceBreaker :=
          phase2_embed_in_icebreaker (pyStrip r.iceBreaker) url }, ?_, rfl, rfl, rfl,
          embed_contains _ _⟩
      simp [h1, h2]

/-- Helper: the column verification walks past rows with other names. -/
theorem cols_skip (nm : String) (d : LeadData) :
    ∀ (xs l : List ResultRow),
      (∀ r ∈ xs, alnumLowerS r.name ≠ alnumLowerS nm) →
      verify_saved_columns nm d (xs ++ l) = verify_saved_columns nm d l := by
  intro xs
  induction xs with
  | nil => intro l _; simp
  | cons r rs ih =>
    intro l h
    have hr : alnumLowerS r.name ≠ alnumLowerS nm := h r (by simp)
    simp only [List.cons_append, verify_saved_columns, if_neg hr]
    exact ih l (fun x hx => h x (by simp [hx]))

/-- Helper: the column verification accepts the row it is meant to
check. -/
theorem cols_self (nm : String) (d : LeadData) (r : ResultRow)
    (hmatch : alnumLowerS r.name = alnumLowerS nm)
    (h1 : r.name = d.restaurantName) (h2 : r.previewUrl = d.previewUrl)
    (h3 : r.phone = d.phone) (h4 : containsSub r.iceBreaker d.previewUrl = true) :
    verify_saved_columns nm d [r] = true := by
  have hmatch2 : alnumLowerS d.restaurantName = alnumLowerS nm := h1 ▸ hmatch
  simp [verify_saved_columns, hmatch, hmatch2, h1, h2, h3, h4]

/-- Helper: under a fresh fingerprint (absent from registry and store),
a fingerprint preserved by the phone-sync correction, no stored row
sharing the item's normalized name, and a non-empty stripped name,
`process_lead_fully_supervised` commits: it returns true, appends
exactly one row carrying the item's name and corrected phone, records
the fingerprint in the registry, and marks the item "Complete". -/
theorem process_lead_commits (pm : PhoneMap) (s : EngineState) (row : Nat)
    (n p u k : String)
    (hk : create_duplicate_key (pyStrip n) (pyStrip p) = some k)
    (hpres : create_duplicate_key (pyStrip n)
        (phase2_get_correct_phone pm (pyStrip n) (pyStrip p)) = some k)
    (hreg : List.lookup k s.registry = none)
    (hscan : ∀ r ∈ s.results, rowKey r ≠ some k)
    (hfresh : ∀ r ∈ s.results, alnumLowerS r.name ≠ alnumLowerS (pyStrip n))
    (hname : pyStrip n ≠ "") :
    ∃ r2 : ResultRow,
      process_lead_fully_supervised pm s row n p u =
        (true,
          ⟨(k, ⟨pyStrip n, phase2_get_correct_phone pm (pyStrip n) (pyStrip p)⟩)
              :: s.registry,
            s.results ++ [r2],
            (row, "Complete") :: (row, "Processing...") :: s.statusWrites⟩,
          [Ev.analysisRun (pyStrip n) (pyStrip u), Ev.appendedRow]) ∧
      r2.name = pyStrip n ∧
      r2.phone = phase2_get_correct_phone pm (pyStrip n) (pyStrip p) := by
  have h1 := phase1_passes s.registry (pyStrip n) (pyStrip p) k s.results hk hreg hscan
  have hval := validate_holds row (pyStrip n) (pyStrip u)
    (phase2_get_correct_phone pm (pyStrip n) (pyStrip p)) hname
  have h2 := phase2_passes (pyStrip n)
    (phase2_get_correct_phone pm (pyStrip n) (pyStrip p)) k s.results hpres hscan
  have hykey : rowKey
      (⟨pyStrip n,
        (runAnalysis (pyStrip n) (pyStrip u) (phase1_generate (pyStrip n))).1,
        (runAnalysis (pyStrip n) (pyStrip u) (phase1_generate (pyStrip n))).2.1,
        phase1_generate (pyStrip n),
        phase2_get_correct_phone pm (pyStrip n) (pyStrip p),
        phase2_embed_in_icebreaker
          (runAnalysis (pyStrip n) (pyStrip u) (phase1_generate (pyStrip n))).2.2
          (phase1_generate (pyStrip n))⟩ : ResultRow) = some k := by
    show create_duplicate_key (pyStrip (pyStrip n))
      (pyStrip (phase2_get_correct_phone pm (pyStrip n) (pyStrip p))) = some k
    rw [create_duplicate_key_pyStrip (pyStrip n)
      (phase2_get_correct_phone pm (pyStrip n) (pyStrip p))]
    exact hpres
  have hm1 := matchIdxs_append_single k _ hykey s.results hscan
  have h3 := phase3_verified s.registry (pyStrip n)
    (phase2_get_correct_phone pm (pyStrip n) (pyStrip p)) k _ s.results.length
    hpres hm1
  have hmatchy : alnumLowerS (pyStrip (pyStrip n)) = alnumLowerS (pyStrip n) :=
    alnumLower_pyStrip (pyStrip n)
  have hskip : ∀ r ∈ s.results, alnumLowerS (pyStrip r.name) ≠ alnumLowerS (pyStrip n) := by
    intro r hr
    rw [alnumLower_pyStrip]
    exact hfresh r hr
  have hsync : phase3_verify_sync (pyStrip n)
      (phase2_get_correct_phone pm (pyStrip n) (pyStrip p))
      (s.results ++
        [(⟨pyStrip n,
          (runAnalysis (pyStrip n) (pyStrip u) (phase1_generate (pyStrip n))).1,
          (runAnalysis (pyStrip n) (pyStrip u) (phase1_generate (pyStrip n))).2.1,
          phase1_generate (pyStrip n),
          phase2_get_correct_phone pm (pyStrip n) (pyStrip p),
          phase2_embed_in_icebreaker
            (runAnalysis (pyStrip n) (pyStrip u) (phase1_generate (pyStrip n))).2.2
            (phase1_generate (pyStrip n))⟩ : ResultRow)]) =
      (true, s.results ++
        [(⟨pyStrip n,
          (runAnalysis (pyStrip n) (pyStrip u) (phase1_generate (pyStrip n))).1,
          (runAnalysis (pyStrip n) (pyStrip u) (phase1_generate (pyStrip n))).2.1,
          phase1_generate (pyStrip n),
          phase2_get_correct_phone pm (pyStrip n) (pyStrip p),
          phase2_embed_in_icebreaker
            (runAnalysis (pyStrip n) (pyStrip u) (phase1_generate (pyStrip n))).2.2
            (phase1_generate (pyStrip n))⟩ : ResultRow)]) := by
    rw [sync_skip (pyStrip n) _ s.results _ hskip]
    rw [sync_self (pyStrip n) (phase2_get_correct_phone pm (pyStrip n) (pyStrip p))
      (⟨pyStrip n,
        (runAnalysis (pyStrip n) (pyStrip u) (phase1_generate (pyStrip n))).1,
        (runAnalysis (pyStrip n) (pyStrip u) (phase1_generate (pyStrip n))).2.1,
        phase1_generate (pyStrip n),
        phase2_get_correct_phone pm (pyStrip n) (pyStrip p),
        phase2_embed_in_icebreaker
          (runAnalysis (pyStrip n) (pyStrip u) (phase1_generate (pyStrip n))).2.2
          (phase1_generate (pyStrip n))⟩ : ResultRow)
      hmatchy rfl]
  obtain ⟨r2, hpvrun, hr2name, hr2phone, hr2pv, hr2ice⟩ :=
    pv_self (pyStrip n) (phase1_generate (pyStrip n))
      (⟨pyStrip n,
        (runAnalysis (pyStrip n) (pyStrip u) (phase1_generate (pyStrip n))).1,
        (runAnalysis (pyStrip n) (pyStrip u) (phase1_generate (pyStrip n))).2.1,
        phase1_generate (pyStrip n),
        phase2_get_correct_phone pm (pyStrip n) (pyStrip p),
        phase2_embed_in_icebreaker
          (runAnalysis (pyStrip n) (pyStrip u) (phase1_generate (pyStrip n))).2.2
          (phase1_generate (pyStrip n))⟩ : ResultRow)
      hmatchy rfl
      (embed_contains
        (runAnalysis (pyStrip n) (pyStrip u) (phase1_generate (pyStrip n))).2.2
        (phase1_generate (pyStrip n)))
  have hpvfull : phase3_verify_saved (pyStrip n) (phase1_generate (pyStrip n))
      (s.results ++
        [(⟨pyStrip n,
          (runAnalysis (pyStrip n) (pyStrip u) (phase1_generate (pyStrip n))).1,
          (runAnalysis (pyStrip n) (pyStrip u) (phase1_generate (pyStrip n))).2.1,
          phase1_generate (pyStrip n),
          phase2_get_correct_phone pm (pyStrip n) (pyStrip p),
          phase2_embed_in_icebreaker
            (runAnalysis (pyStrip n) (pyStrip u) (phase1_generate (pyStrip n))).2.2
            (phase1_generate (pyStrip n))⟩ : ResultRow)]) =
      (true, s.results ++ [r2]) := by
    rw [pv_skip (pyStrip n) _ s.results _ hskip]
    rw [hpvrun]
  have hcols : verify_saved_columns (pyStrip n)
      ⟨pyStrip n, phase2_get_correct_phone pm (pyStrip n) (pyStrip p), pyStrip u,
        (runAnalysis (pyStrip n) (pyStrip u) (phase1_generate (pyStrip n))).1,
        (runAnalysis (pyStrip n) (pyStrip u) (phase1_generate (pyStrip n))).2.1,
        phase1_generate (pyStrip n),
        phase2_embed_in_icebreaker
          (runAnalysis (pyStrip n) (pyStrip u) (phase1_generate (pyStrip n))).2.2
          (phase1_generate (pyStrip n)), row⟩
      (s.results ++ [r2]) = true := by
    rw [cols_skip (pyStrip n) _ s.results _ hfresh]
    apply cols_self
    · rw [hr2name]
    · exact hr2name
    · exact hr2pv
    · exact hr2phone
    · exact hr2ice
  refine ⟨r2, ?_, by rw [hr2name], by rw [hr2phone]⟩
  simp only [process_lead_fully_supervised, setStatus, toResultRow, h1, hval, h2,
    h3, hsync, hpvfull, hcols]
  simp

/-- C1 (amended): for a work item whose (name, phone) yields a
fingerprint that the phone-sync correction preserves, submitted against
a state where the fingerprint is absent from the registry and the result
store and no stored row shares the item's normalized name: the first
submission commits successfully, and processing the same item a second
time appends no new ResultRecord, marks the source item
"Complete - Duplicate", produces no events at all (in particular the
fetch/analyze section never runs), and leaves exactly one ResultRecord
bearing the fingerprint.  (Without the preservation hypothesis the
second run can re-run the analysis section — see the counterexample.) -/
theorem c1_amended (pm : PhoneMap) (s : EngineState) (row : Nat) (n p u k : String)
    (hk : create_duplicate_key (pyStrip n) (pyStrip p) = some k)
    (hpres : create_duplicate_key (pyStrip n)
        (phase2_get_correct_phone pm (pyStrip n) (pyStrip p)) = some k)
    (hreg : List.lookup k s.registry = none)
    (hscan : ∀ r ∈ s.results, rowKey r ≠ some k)
    (hfresh : ∀ r ∈ s.results, alnumLowerS r.name ≠ alnumLowerS (pyStrip n))
    (hname : pyStrip n ≠ "") :
    (process_lead_fully_supervised pm s row n p u).1 = true ∧
    (process_lead_fully_supervised pm
        (process_lead_fully_supervised pm s row n p u).2.1 row n p u).1 = false ∧
    (process_lead_fully_supervised pm
        (process_lead_fully_supervised pm s row n p u).2.1 row n p u).2.1.results =
      (process_lead_fully_supervised pm s row n p u).2.1.results ∧
    statusOf row (process_lead_fully_supervised pm
        (process_lead_fully_supervised pm s row n p u).2.1 row n p u).2.1 =
      some "Complete - Duplicate" ∧
    (process_lead_fully_supervised pm
        (process_lead_fully_supervised pm s row n p u).2.1 row n p u).2.2 = [] ∧
    countKey k (process_lead_fully_supervised pm
        (process_lead_fully_supervised pm s row n p u).2.1 row n p u).2.1.results = 1 := by
  obtain ⟨r2, hfirst, hr2name, hr2phone⟩ :=
    process_lead_commits pm s row n p u k hk hpres hreg hscan hfresh hname
  have hr2key : rowKey r2 = some k := by
    show create_duplicate_key (pyStrip r2.name) (pyStrip r2.phone) = some k
    rw [hr2name, hr2phone, create_duplicate_key_pyStrip]
    exact hpres
  have hsecond : process_lead_fully_supervised pm
      ⟨(k, ⟨pyStrip n, phase2_get_correct_phone pm (pyStrip n) (pyStrip p)⟩)
          :: s.registry,
        s.results ++ [r2],
        (row, "Complete") :: (row, "Processing...") :: s.statusWrites⟩ row n p u =
      (false,
        ⟨(k, ⟨pyStrip n, phase2_get_correct_phone pm (pyStrip n) (pyStrip p)⟩)
            :: s.registry,
          s.results ++ [r2],
          (row, "Complete - Duplicate") :: (row, "Complete") ::
            (row, "Processing...") :: s.statusWrites⟩, []) := by
    have hhit := phase1_registry_hits
      ((k, (⟨pyStrip n, phase2_get_correct_phone pm (pyStrip n) (pyStrip p)⟩ :
        RegEntry)) :: s.registry)
      (pyStrip n) (pyStrip p) k
      ⟨pyStrip n, phase2_get_correct_phone pm (pyStrip n) (pyStrip p)⟩
      (Except.ok (s.results ++ [r2])) hk (by simp [List.lookup])
    simp only [process_lead_fully_supervised, setStatus, hhit]
    simp
  rw [hfirst]
  dsimp only
  rw [hsecond]
  refine ⟨rfl, rfl, rfl, ?_, rfl, ?_⟩
  · simp [statusOf, List.lookup]
  · show countKey k (s.results ++ [r2]) = 1
    rw [countKey, matchIdxs_append_single k r2 hr2key s.results hscan]
    rfl

/-- The phone map built from a LEADS sheet holding the Cafe X item. -/
def cafePM : PhoneMap := [("cafex", "09876543210")]

/-- An engine state with empty registry, result store, and status
history. -/
def emptyEngine : EngineState := ⟨[], [], []⟩

/-- C1 witness: the Cafe X item processed twice from a clean state. -/
theorem c1_witness :
    (process_lead_fully_supervised cafePM emptyEngine 2 "Cafe X" "09876543210"
      "http://cafex.test").1 = true ∧
    (process_lead_fully_supervised cafePM
        (process_lead_fully_supervised cafePM emptyEngine 2 "Cafe X" "09876543210"
          "http://cafex.test").2.1 2 "Cafe X" "09876543210" "http://cafex.test").1 =
      false ∧
    (process_lead_fully_supervised cafePM
        (process_lead_fully_supervised cafePM emptyEngine 2 "Cafe X" "09876543210"
          "http://cafex.test").2.1 2 "Cafe X" "09876543210"
        "http://cafex.test").2.1.results =
      (process_lead_fully_supervised cafePM emptyEngine 2 "Cafe X" "09876543210"
        "http://cafex.test").2.1.results ∧
    statusOf 2 (process_lead_fully_supervised cafePM
        (process_lead_fully_supervised cafePM emptyEngine 2 "Cafe X" "09876543210"
          "http://cafex.test").2.1 2 "Cafe X" "09876543210"
        "http://cafex.test").2.1 = some "Complete - Duplicate" ∧
    (process_lead_fully_supervised cafePM
        (process_lead_fully_supervised cafePM emptyEngine 2 "Cafe X" "09876543210"
          "http://cafex.test").2.1 2 "Cafe X" "09876543210"
        "http://cafex.test").2.2 = [] ∧
    countKey "phone:9876543210" (process_lead_fully_supervised cafePM
        (process_lead_fully_supervised cafePM emptyEngine 2 "Cafe X" "09876543210"
          "http://cafex.test").2.1 2 "Cafe X" "09876543210"
        "http://cafex.test").2.1.results = 1 :=
  c1_amended cafePM emptyEngine 2 "Cafe X" "09876543210" "http://cafex.test"
    "phone:9876543210" (by decide) (by decide) rfl
    (by intro r hr; simp [emptyEngine] at hr)
    (by intro r hr; simp [emptyEngine] at hr) (by decide)

/-- A phone map whose entry corrects the item's phone to a different
valid number (as happens when two leads share a normalized name). -/
def mismatchPM : PhoneMap := [("a", "0987654321")]

/-- C1 counterexample: with a phone-sync correction that changes the
fingerprint, the second submission of an already-committed item re-runs
the fetch/analyze section before Phase 2 blocks it — against the claim
that the collaborators are never invoked for the second submission. -/
theorem c1_counterexample :
    (process_lead_fully_supervised mismatchPM emptyEngine 2 "A" "1234567890"
      "http://a.test").1 = true ∧
    Ev.analysisRun "A" "http://a.test" ∈
      (process_lead_fully_supervised mismatchPM
        (process_lead_fully_supervised mismatchPM emptyEngine 2 "A" "1234567890"
          "http://a.test").2.1 2 "A" "1234567890" "http://a.test").2.2 := by
  constructor
  · decide
  · decide

/-- C9 counterexample: after the spec's end-to-end run, no ResultRecord
holds "9876543210" in the contact column — the engine stores the raw
corrected phone "09876543210", not the normalized contact. -/
theorem c9_counterexample :
    (process_lead_fully_supervised cafePM emptyEngine 2 "Cafe X" "09876543210"
      "http://cafex.test").1 = true ∧
    (process_lead_fully_supervised cafePM emptyEngine 2 "Cafe X" "09876543210"
        "http://cafex.test").2.1.results.filter
      (fun r => r.phone == "9876543210") = [] := by
  constructor
  · decide
  · decide

/-- C9 (amended): the end-to-end scenario produces exactly one
ResultRecord whose contact column holds the raw phone "09876543210"
(whose `normalize_phone` image is "9876543210"), marks the inbound item
"Complete", and a second identical submission appends no new record. -/
theorem c9_amended :
    (process_lead_fully_supervised cafePM emptyEngine 2 "Cafe X" "09876543210"
      "http://cafex.test").1 = true ∧
    (process_lead_fully_supervised cafePM emptyEngine 2 "Cafe X" "09876543210"
        "http://cafex.test").2.1.results.map (fun r => r.phone) = ["09876543210"] ∧
    normalize_phone "09876543210" = "9876543210" ∧
    statusOf 2 (process_lead_fully_supervised cafePM emptyEngine 2 "Cafe X"
        "09876543210" "http://cafex.test").2.1 = some "Complete" ∧
    toLowerStr "Complete" = "complete" ∧
    (process_lead_fully_supervised cafePM
        (process_lead_fully_supervised cafePM emptyEngine 2 "Cafe X" "09876543210"
          "http://cafex.test").2.1 2 "Cafe X" "09876543210"
        "http://cafex.test").2.1.results.length =
      (process_lead_fully_supervised cafePM emptyEngine 2 "Cafe X" "09876543210"
        "http://cafex.test").2.1.results.length := by
  refine ⟨by decide, by decide, by decide, by decide, by decide, by decide⟩

/-- The LEADS row for the quota test: a pending Cafe X item. -/
def pendingLead : LeadRecord := ⟨"Cafe X", "09876543210", "http://cafex.test", "Pending"⟩

/-- C8 (code bug): with the persisted daily tracker already at the
`MAX_LEADS_PER_DAY` cap for today — so the engine's own (never-invoked)
accounting says capacity is exhausted — `main`'s loop iteration still
selects and fully processes the pending work item, including the
fetch/analyze section: the loop consults no quota state at all. -/
theorem c8_no_quota_gate :
    MAX_LEADS_PER_DAY ≤
      (reset_daily_count_if_new_day "2026-10-12"
        ⟨"2026-10-12", 50, ""⟩).processedCount ∧
    (mainIteration cafePM emptyEngine [pendingLead]).1 =
      IterOutcome.processedLead 2 true ∧
    Ev.analysisRun "Cafe X" "http://cafex.test" ∈
      (mainIteration cafePM emptyEngine [pendingLead]).2.2 := by
  refine ⟨by decide, by decide, by decide⟩
